import Mathlib

/-!
Verification model of the order-management-system backend.

The definitions below are a shallow embedding of the Python source:
the SQLAlchemy tables (`src/src/database/models.py`) become record types
held in lists, each service method (`src/src/auth/services.py`,
`src/src/orders/services.py`, `src/src/auth/dependencies.py`,
`src/src/auth/routes.py`, `src/src/celery_tasks.py`) becomes a pure
function on an explicit database state.  Timestamps are integers
(seconds since epoch); monetary amounts are rationals; the JWT codec and
the password-hashing primitive are black boxes passed in as function
parameters, exactly as the spec treats them.
-/

/-- Order status enum (`STATUS` in `src/src/database/models.py`). -/
inductive STATUS where
  | PENDING
  | PROCESSING
  | COMPLETED
  | CANCELLED
deriving DecidableEq, Repr

/-- Row of the `users` table. -/
structure User where
  id : String
  email : String
  name : String
  /-- stored hashed, never in clear form -/
  password : String
deriving DecidableEq, Repr

/-- Row of the `refresh_tokens` table (`RefreshToken` model). -/
structure RefreshTokenRow where
  id : String
  token : String
  user_id : String
  expires_at : Int
deriving DecidableEq, Repr

/-- Row of the `orders` table (`Order` model). -/
structure Order where
  id : String
  user_id : String
  product_name : String
  amount : Rat
  status : STATUS
  created_at : Int
deriving DecidableEq, Repr

/-- The relational store: the three tables of the data model. -/
structure DB where
  users : List User
  refresh_tokens : List RefreshTokenRow
  orders : List Order
deriving DecidableEq, Repr

/-! ## Order Lifecycle Manager (`src/src/orders/services.py`) -/

/-- Model of `OrderService.create_order`: inserts a new PENDING order owned by the
caller.  `newId` stands for the generated `uuid4` primary key and `now`
for `datetime.now(timezone.utc)`. -/
def create_order (newId : String) (now : Int) (db : DB) (user : User)
    (product_name : String) (amount : Rat) : Order × DB :=
  let new_order : Order :=
    { id := newId
      user_id := user.id
      product_name := product_name
      amount := amount
      status := STATUS.PENDING
      created_at := now }
  (new_order, { db with orders := db.orders ++ [new_order] })

/-- Validation performed by the `OrderCreate` request schema
(`src/src/orders/schema.py`): `product_name` has `min_length=1` and
`amount` has `gt=0`. -/
def orderCreateValid (product_name : String) (amount : Rat) : Bool :=
  decide (1 ≤ product_name.length) && decide (0 < amount)

/-- Outcome of the `POST /orders/create` route. -/
inductive CreateOrderOutcome where
  | validationError
  | created (o : Order)
deriving DecidableEq, Repr

/-- The `create_order` route (`src/src/orders/routes.py`): request-body
validation via `OrderCreate`, then `OrderService.create_order`. -/
def create_order_endpoint (newId : String) (now : Int) (db : DB) (user : User)
    (product_name : String) (amount : Rat) : CreateOrderOutcome × DB :=
  if orderCreateValid product_name amount then
    let r := create_order newId now db user product_name amount
    (CreateOrderOutcome.created r.1, r.2)
  else
    (CreateOrderOutcome.validationError, db)

/-- Outcome of `OrderService.cancel_order`: 404, 400, or the updated order. -/
inductive CancelOutcome where
  | notFound
  | invalidTransition
  | ok (o : Order)
deriving DecidableEq, Repr

/-- Model of `OrderService.cancel_order`: looks the order up by id AND owner in a
single query; 404 when nothing matches, 400 unless the status is
PENDING, otherwise sets the status to CANCELLED and commits. -/
def cancel_order (db : DB) (order_id : String) (user : User) :
    CancelOutcome × DB :=
  match db.orders.find? (fun o => o.id == order_id && o.user_id == user.id) with
  | none => (CancelOutcome.notFound, db)
  | some order =>
    if order.status ≠ STATUS.PENDING then
      (CancelOutcome.invalidTransition, db)
    else
      let updated := { order with status := STATUS.CANCELLED }
      (CancelOutcome.ok updated,
        { db with orders :=
            db.orders.map (fun o =>
              if o.id == order.id then { o with status := STATUS.CANCELLED } else o) })

/-! ## Background Progression Worker (`src/src/celery_tasks.py`) -/

/-- One committed status write of the worker's stage loop
(`order.status = status; await session.commit()`). -/
def setOrderStatus (db : DB) (order_id : String) (s : STATUS) : DB :=
  { db with orders :=
      db.orders.map (fun o => if o.id == order_id then { o with status := s } else o) }

/-- Outcome of the celery task `process_order`. -/
inductive WorkerOutcome where
  | notFound
  | processed
deriving DecidableEq, Repr

/-- Model of `process_order`: fetches the order by primary key; if absent, logs and
returns; otherwise runs the stage loop, committing PROCESSING and then
COMPLETED.  The loop does not inspect the current status. -/
def process_order (db : DB) (order_id : String) : WorkerOutcome × DB :=
  match db.orders.find? (fun o => o.id == order_id) with
  | none => (WorkerOutcome.notFound, db)
  | some _ =>
    (WorkerOutcome.processed,
      setOrderStatus (setOrderStatus db order_id STATUS.PROCESSING) order_id STATUS.COMPLETED)

/-! ## Token codec (`jwt.encode` / `jwt.decode` in `src/src/auth/services.py`)

The codec is a black box behind a process-wide secret; what the services
observe of `jwt.decode` is one of three outcomes: an `InvalidTokenError`
(malformed or bad signature), an `ExpiredSignatureError`, or the decoded
claim dictionary.  A concrete deployment is modelled as a function from
token strings to outcomes. -/

/-- The claims the services read out of a decoded payload.  `sub` and
`type` are read with `dict.get` and may be absent. -/
structure Claims where
  sub : Option String
  email : String
  type : Option String
deriving DecidableEq, Repr

/-- Result of `jwt.decode` on one token string. -/
inductive DecodeOutcome where
  | malformed
  | expiredSig
  | payload (c : Claims)
deriving DecidableEq, Repr

/-- Model of `UserService.decode_token`: returns the payload when decoding
succeeds, `None` on `ExpiredSignatureError` or `InvalidTokenError`. -/
def decode_token (decode : String → DecodeOutcome) (token : String) :
    Option Claims :=
  match decode token with
  | DecodeOutcome.payload c => some c
  | DecodeOutcome.malformed => none
  | DecodeOutcome.expiredSig => none

/-- The password-hashing primitive (argon2 behind `CryptContext`),
treated as a black-box one-way function with a verify operation. -/
structure Crypto where
  hash : String → String
  verify : String → String → Bool

/-! ## Session Manager (`UserService` in `src/src/auth/services.py`) -/

/-- Request body of `POST /auth/register` (`UserCreate` schema). -/
structure UserCreate where
  name : String
  email : String
  password : String
deriving DecidableEq, Repr

/-- Outcome of `UserService.create_user`. -/
inductive RegisterOutcome where
  | duplicateEmail
  | ok (u : User)
deriving DecidableEq, Repr

/-- Model of `UserService.create_user`: rejects an already-used email with
`ValueError` (mapped to 400 DuplicateEmail by the route), otherwise
inserts a new user row carrying the hashed password. -/
def create_user (c : Crypto) (newId : String) (db : DB) (ud : UserCreate) :
    RegisterOutcome × DB :=
  match db.users.find? (fun u => u.email == ud.email) with
  | some _ => (RegisterOutcome.duplicateEmail, db)
  | none =>
    let new_user : User :=
      { id := newId
        email := ud.email
        name := ud.name
        password := c.hash ud.password }
    (RegisterOutcome.ok new_user, { db with users := db.users ++ [new_user] })

/-- Model of `UserService.authenticate_user`: one lookup by email, then password
verification; `None` both when the email is unknown and when the
password does not verify. -/
def authenticate_user (c : Crypto) (db : DB) (email password : String) :
    Option User :=
  match db.users.find? (fun u => u.email == email) with
  | none => none
  | some user =>
    if c.verify password user.password then some user else none

/-- Model of `UserService.create_refresh_token`: issues a refresh-kind token via
the codec (`issueRefresh` stands for `create_access_token(..., refresh=True)`),
deletes the user's existing `RefreshToken` row if one exists, and inserts
the new row.  `newRowId` stands for the generated `uuid4` primary key,
`now` for `datetime.now(timezone.utc)`; the stored expiry is
`now + REFRESH_TOKEN_EXPIRE_DAYS` (7 days, in seconds). -/
def create_refresh_token (issueRefresh : String → String → String)
    (newRowId : String) (now : Int) (db : DB) (user : User) : String × DB :=
  let refresh_tok := issueRefresh user.id user.email
  let db1 :=
    match db.refresh_tokens.find? (fun r => r.user_id == user.id) with
    | some old_token => { db with refresh_tokens := db.refresh_tokens.erase old_token }
    | none => db
  let new_row : RefreshTokenRow :=
    { id := newRowId
      token := refresh_tok
      user_id := user.id
      expires_at := now + 7 * 24 * 60 * 60 }
  (refresh_tok, { db1 with refresh_tokens := db1.refresh_tokens ++ [new_row] })

/-- Model of `UserService.refresh_access_token`: decode, demand kind `refresh`,
demand the subject's user, demand a stored row matching the token string,
delete the row and fail when it is expired, otherwise issue a new access
token (`issueAccess` stands for `create_access_token` on the user's
id/email).  Returns the optional new access token and the resulting
store. -/
def refresh_access_token (decode : String → DecodeOutcome)
    (issueAccess : String → String → String) (now : Int) (db : DB)
    (refresh_tok : String) : Option String × DB :=
  match decode refresh_tok with
  | DecodeOutcome.malformed => (none, db)
  | DecodeOutcome.expiredSig => (none, db)
  | DecodeOutcome.payload decoded =>
    if decoded.type ≠ some "refresh" then (none, db)
    else
      match db.users.find? (fun u => decide (decoded.sub = some u.id)) with
      | none => (none, db)
      | some user =>
        match db.refresh_tokens.find? (fun r => r.token == refresh_tok) with
        | none => (none, db)
        | some token_entry =>
          if token_entry.expires_at < now then
            (none, { db with refresh_tokens := db.refresh_tokens.erase token_entry })
          else
            (some (issueAccess user.id user.email), db)

/-! ## Authentication Gate (`src/src/auth/dependencies.py`) -/

/-- Outcome of `get_current_user`: 401 with a detail string, or the user. -/
inductive AuthOutcome where
  | unauthorized (detail : String)
  | ok (u : User)
deriving DecidableEq, Repr

/-- Model of `get_current_user`: decode the bearer token, reject when decoding
fails, when the `sub` claim is missing or falsy, or when no user with
that id exists; otherwise return the live user row. -/
def get_current_user (decode : String → DecodeOutcome) (db : DB)
    (token : String) : AuthOutcome :=
  match decode_token decode token with
  | none => AuthOutcome.unauthorized "Invalid token"
  | some payload =>
    match payload.sub with
    | none => AuthOutcome.unauthorized "Invalid token payload"
    | some user_id =>
      if user_id = "" then AuthOutcome.unauthorized "Invalid token payload"
      else
        match db.users.find? (fun u => u.id == user_id) with
        | none => AuthOutcome.unauthorized "User not found"
        | some user => AuthOutcome.ok user

/-! ## Login route (`src/src/auth/routes.py`) -/

/-- The cookie set by the login route. -/
structure Cookie where
  key : String
  value : String
  httponly : Bool
  secure : Bool
  samesite : String
  max_age : Int
deriving DecidableEq, Repr

/-- Outcome of `POST /auth/login`: 401, or a JSON body (a list of
key/value pairs, exactly the dictionary the route returns) together with
the cookie it sets. -/
inductive LoginOutcome where
  | unauthorized (detail : String)
  | success (body : List (String × String)) (cookie : Cookie)
deriving DecidableEq, Repr

/-- The `login` route: authenticate, 401 on failure; on success issue an
access token, persist a refresh token, set the refresh-token cookie, and
return the JSON body `{access_token, token_type}`. -/
def login (c : Crypto) (issueAccess issueRefresh : String → String → String)
    (newRowId : String) (now : Int) (db : DB) (email password : String) :
    LoginOutcome × DB :=
  match authenticate_user c db email password with
  | none => (LoginOutcome.unauthorized "Invalid credentials", db)
  | some user =>
    let access_token := issueAccess user.id user.email
    let r := create_refresh_token issueRefresh newRowId now db user
    (LoginOutcome.success
        [("access_token", access_token), ("token_type", "bearer")]
        { key := "refresh_token"
          value := r.1
          httponly := true
          secure := true
          samesite := "strict"
          max_age := 7 * 24 * 60 * 60 },
      r.2)

/-! ## Concrete fixtures used by witnesses and counterexamples -/

/-- A concrete stand-in for the argon2 hash/verify pair. -/
def crypto0 : Crypto :=
  { hash := fun p => String.append "argon2:" p
    verify := fun p h => h == String.append "argon2:" p }

/-- A stored user whose password is `pw1`. -/
def alice : User :=
  { id := "u1", email := "alice@example.com", name := "Alice",
    password := "argon2:pw1" }

/-- A second stored user whose password is `pw2`. -/
def bob : User :=
  { id := "u2", email := "bob@example.com", name := "Bob",
    password := "argon2:pw2" }

/-- A concrete access-token issuer (stands for `jwt.encode` on an
access-kind payload). -/
def issueAccess0 : String → String → String :=
  fun uid _ => String.append "acc:" uid

/-- A concrete refresh-token issuer (stands for `jwt.encode` on a
refresh-kind payload). -/
def issueRefresh0 : String → String → String :=
  fun uid _ => String.append "ref:" uid

/-- A pending order owned by `alice`. -/
def pendingOrder : Order :=
  { id := "o1", user_id := "u1", product_name := "Widget",
    amount := 2, status := STATUS.PENDING, created_at := 0 }

/-- A cancelled order owned by `alice`. -/
def cancelledOrder : Order :=
  { id := "o3", user_id := "u1", product_name := "Widget",
    amount := 2, status := STATUS.CANCELLED, created_at := 0 }

/-- An order owned by `bob`. -/
def bobOrder : Order :=
  { id := "o2", user_id := "u2", product_name := "Gadget",
    amount := 5, status := STATUS.PENDING, created_at := 0 }

/-- Store holding both users, a pending order of alice's and an order of
bob's. -/
def db0 : DB :=
  { users := [alice, bob], refresh_tokens := [], orders := [pendingOrder, bobOrder] }

/-- Store holding a cancelled order. -/
def dbCancelled : DB :=
  { users := [alice], refresh_tokens := [], orders := [cancelledOrder] }

/-- Store with no orders at all. -/
def dbNoOrders : DB :=
  { users := [alice], refresh_tokens := [], orders := [] }

/-- Claim set of a validly signed, unexpired refresh-kind token for
alice. -/
def refreshClaimsAlice : Claims :=
  { sub := some "u1", email := "alice@example.com", type := some "refresh" }

/-- Decode map of a deployment in which the string `rtok` is a valid,
unexpired refresh token for alice and every other string is malformed. -/
def decodeR : String → DecodeOutcome :=
  fun t =>
    if t == "rtok" then DecodeOutcome.payload refreshClaimsAlice
    else DecodeOutcome.malformed

/-- Fresh registration data for a user not in `db0`. -/
def udCarol : UserCreate :=
  { name := "Carol", email := "carol@example.com", password := "pw3" }

/-- Registration data reusing alice's stored email. -/
def udAliceDup : UserCreate :=
  { name := "Eve", email := "alice@example.com", password := "pw9" }

/-- alice's stored refresh-token row, already expired at time 100. -/
def staleRow : RefreshTokenRow :=
  { id := "r1", token := "ref:u1", user_id := "u1", expires_at := 50 }

/-- Store in which alice's only refresh-token row is `staleRow`. -/
def dbStale : DB :=
  { users := [alice, bob], refresh_tokens := [staleRow], orders := [] }

/-- Decode map under which the string `ref:u1` carries alice's
refresh-kind claims and everything else is malformed. -/
def decodeRef : String → DecodeOutcome :=
  fun t =>
    if t == "ref:u1" then DecodeOutcome.payload refreshClaimsAlice
    else DecodeOutcome.malformed

/-- Number of stored refresh-token rows belonging to user id `uid`. -/
def tokenRowCount (db : DB) (uid : String) : Nat :=
  db.refresh_tokens.countP (fun r => r.user_id == uid)

/-- A live refresh-token row of alice's from an earlier login. -/
def oldRow : RefreshTokenRow :=
  { id := "r0", token := "oldtok", user_id := "u1", expires_at := 999 }

/-- Store in which alice already has one stored refresh-token row. -/
def dbOneTok : DB :=
  { users := [alice, bob], refresh_tokens := [oldRow], orders := [] }

/-! ## Helper lemmas -/

/-- A status-only update by id keeps the `(id, owner)` lookup pointing at
the (updated) row the lookup found before. -/
theorem find?_after_status_update (l : List Order) (oid uid : String)
    (ord : Order) (s : STATUS)
    (h : l.find? (fun o => o.id == oid && o.user_id == uid) = some ord) :
    (l.map (fun o => if o.id == ord.id then { o with status := s } else o)).find?
        (fun o => o.id == oid && o.user_id == uid) =
      some { ord with status := s } := by
  have hpf : ((fun o : Order => o.id == oid && o.user_id == uid) ∘
      (fun o => if o.id == ord.id then { o with status := s } else o)) =
      (fun o : Order => o.id == oid && o.user_id == uid) := by
    funext o
    by_cases hu : o.id = ord.id <;> simp [hu]
  rw [List.find?_map, hpf, h]
  simp

/-- A nonempty string has length at least one. -/
theorem one_le_length_of_ne_empty (s : String) (h : s ≠ "") : 1 ≤ s.length := by
  cases s with
  | mk data =>
    cases data with
    | nil => exact absurd rfl h
    | cons c cs =>
      simp [String.length]

/-- Deleting the row the token lookup found removes every row with that
token string, provided stored token strings are unique (the uniqueness
constraint on `refresh_tokens.token`). -/
theorem find?_token_erase (l : List RefreshTokenRow) (tok : String)
    (entry : RefreshTokenRow)
    (hr : l.find? (fun r => r.token == tok) = some entry)
    (huniq : (l.map (fun r => r.token)).Nodup) :
    (l.erase entry).find? (fun r => r.token == tok) = none := by
  rw [List.find?_eq_none]
  intro x hx hpx
  have hmem : x ∈ l := List.mem_of_mem_erase hx
  have hentry_mem : entry ∈ l := List.mem_of_find?_eq_some hr
  have hentry_tok : entry.token = tok := by simpa using List.find?_some hr
  have hx_tok : x.token = tok := by simpa using hpx
  have hxe : x = entry :=
    List.inj_on_of_nodup_map huniq hmem hentry_mem (hx_tok.trans hentry_tok.symm)
  have hnd : l.Nodup := List.Nodup.of_map _ huniq
  exact absurd (hxe ▸ hx) (List.Nodup.not_mem_erase hnd)

/-! ## Claim theorems -/

/-- Claim C1 (code-bug evidence): the background worker's stage loop never
inspects the current status.  Run on a store whose only order is
CANCELLED, `process_order` reports `processed`, first commits status
PROCESSING, and leaves the order COMPLETED — the CANCELLED order is
moved to PROCESSING and then COMPLETED, contradicting terminality. -/
theorem process_order_overwrites_cancelled :
    cancelledOrder.status = STATUS.CANCELLED ∧
    (process_order dbCancelled "o3").1 = WorkerOutcome.processed ∧
    (setOrderStatus dbCancelled "o3" STATUS.PROCESSING).orders =
      [{ cancelledOrder with status := STATUS.PROCESSING }] ∧
    (process_order dbCancelled "o3").2.orders =
      [{ cancelledOrder with status := STATUS.COMPLETED }] := by
  refine ⟨rfl, ?_, ?_, ?_⟩ <;> decide

/-- Claim C6: when the `(id, owner)` lookup finds the caller's order, a
cancel succeeds exactly on status PENDING, setting the status to
CANCELLED in the returned order and in the store; on any other status it
fails with InvalidTransition (HTTP 400) and leaves the store unchanged,
so a second cancel of the same id fails with InvalidTransition. -/
theorem cancel_order_spec (db : DB) (oid : String) (u : User) (ord : Order)
    (h : db.orders.find? (fun o => o.id == oid && o.user_id == u.id) = some ord) :
    (ord.status = STATUS.PENDING →
      (cancel_order db oid u).1 =
        CancelOutcome.ok { ord with status := STATUS.CANCELLED } ∧
      (cancel_order db oid u).2.orders =
        db.orders.map
          (fun o => if o.id == ord.id then { o with status := STATUS.CANCELLED } else o) ∧
      (cancel_order (cancel_order db oid u).2 oid u).1 =
        CancelOutcome.invalidTransition) ∧
    (ord.status ≠ STATUS.PENDING →
      cancel_order db oid u = (CancelOutcome.invalidTransition, db)) := by
  constructor
  · intro hp
    have e1 : cancel_order db oid u =
        (CancelOutcome.ok { ord with status := STATUS.CANCELLED },
         { db with orders := (db.orders.map (fun o =>
             if o.id == ord.id then { o with status := STATUS.CANCELLED } else o)) }) := by
      simp [cancel_order, h, hp]
    have hupd := find?_after_status_update db.orders oid u.id ord STATUS.CANCELLED h
    refine ⟨by rw [e1], by rw [e1], ?_⟩
    rw [e1]
    simp only [cancel_order]
    rw [hupd]
    simp
  · intro hp
    simp [cancel_order, h, hp]

/-- Witness for C6 at a concrete store: cancelling alice's pending order
succeeds with status CANCELLED, and cancelling it again fails with
InvalidTransition. -/
theorem cancel_order_spec_witness :
    (cancel_order db0 "o1" alice).1 =
      CancelOutcome.ok { pendingOrder with status := STATUS.CANCELLED } ∧
    (cancel_order (cancel_order db0 "o1" alice).2 "o1" alice).1 =
      CancelOutcome.invalidTransition := by
  have h := (cancel_order_spec db0 "o1" alice pendingOrder (by decide)).1 (by decide)
  exact ⟨h.1, h.2.2⟩

/-- Claim C7: whenever no order matches the combined `(id, owner)` lookup —
whether the id does not exist at all or the order belongs to a different
user — `cancel_order` returns the one NotFound outcome with the store
untouched, so the two failure scenarios are caller-indistinguishable. -/
theorem cancel_order_notfound_uniform (db db2 : DB) (oid oid2 : String)
    (u u2 : User)
    (h : ∀ o ∈ db.orders, ¬ (o.id = oid ∧ o.user_id = u.id))
    (h2 : ∀ o ∈ db2.orders, ¬ (o.id = oid2 ∧ o.user_id = u2.id)) :
    cancel_order db oid u = (CancelOutcome.notFound, db) ∧
    cancel_order db2 oid2 u2 = (CancelOutcome.notFound, db2) ∧
    (cancel_order db oid u).1 = (cancel_order db2 oid2 u2).1 := by
  have hf : db.orders.find? (fun o => o.id == oid && o.user_id == u.id) = none := by
    rw [List.find?_eq_none]
    intro x hx
    simpa using h x hx
  have hf2 : db2.orders.find? (fun o => o.id == oid2 && o.user_id == u2.id) = none := by
    rw [List.find?_eq_none]
    intro x hx
    simpa using h2 x hx
  refine ⟨by simp [cancel_order, hf], by simp [cancel_order, hf2], ?_⟩
  simp [cancel_order, hf, hf2]

/-- Witness for C7: alice cancelling bob's real order `o2` and alice
cancelling the nonexistent id `zzz` produce the identical NotFound
outcome. -/
theorem cancel_order_notfound_uniform_witness :
    cancel_order db0 "o2" alice = (CancelOutcome.notFound, db0) ∧
    cancel_order dbNoOrders "zzz" alice = (CancelOutcome.notFound, dbNoOrders) ∧
    (cancel_order db0 "o2" alice).1 = (cancel_order dbNoOrders "zzz" alice).1 :=
  cancel_order_notfound_uniform db0 dbNoOrders "o2" "zzz" alice alice
    (by decide) (by decide)

/-- Claim C10: with a non-empty product name and a positive amount the
create endpoint persists exactly one new order — PENDING, owned by the
caller, carrying the given name/amount and the creation timestamp — and
returns it; an empty name or non-positive amount is rejected as a
validation error with the store untouched. -/
theorem create_order_endpoint_spec (newId : String) (now : Int) (db : DB)
    (u : User) (pn : String) (amt : Rat) :
    (pn ≠ "" → 0 < amt →
      (create_order_endpoint newId now db u pn amt).1 =
        CreateOrderOutcome.created
          { id := newId, user_id := u.id, product_name := pn, amount := amt,
            status := STATUS.PENDING, created_at := now } ∧
      (create_order_endpoint newId now db u pn amt).2.orders =
        db.orders ++
          [{ id := newId, user_id := u.id, product_name := pn, amount := amt,
             status := STATUS.PENDING, created_at := now }] ∧
      (create_order_endpoint newId now db u pn amt).2.users = db.users ∧
      (create_order_endpoint newId now db u pn amt).2.refresh_tokens =
        db.refresh_tokens) ∧
    ((pn = "" ∨ amt ≤ 0) →
      create_order_endpoint newId now db u pn amt =
        (CreateOrderOutcome.validationError, db)) := by
  constructor
  · intro hpn hamt
    have hv : orderCreateValid pn amt = true := by
      simp [orderCreateValid, one_le_length_of_ne_empty pn hpn, hamt]
    simp [create_order_endpoint, hv, create_order]
  · intro hbad
    have hv : orderCreateValid pn amt = false := by
      rcases hbad with hpn | hamt
      · subst hpn
        simp [orderCreateValid]
      · simp [orderCreateValid, not_lt.mpr hamt]
    simp [create_order_endpoint, hv]

/-- Claim C2 (counterexample): `get_current_user` returns the authenticated
user for a bearer token whose decoded kind claim is `refresh`, not
`access` — the request is not rejected with Unauthorized. -/
theorem get_current_user_accepts_refresh_token :
    refreshClaimsAlice.type = some "refresh" ∧
    some "refresh" ≠ some "access" ∧
    get_current_user decodeR db0 "rtok" = AuthOutcome.ok alice := by
  refine ⟨rfl, by decide, by decide⟩

/-- Claim C2 (amended): the Authentication Gate never consults the kind/type
claim.  Any token that decodes to a payload whose `sub` is a non-empty
id of a stored user is accepted — whatever its kind, in particular a
valid, unexpired refresh token — and the gate rejects Unauthorized only
on decode failure, a missing or empty `sub`, or an unknown user. -/
theorem get_current_user_ignores_kind (decode : String → DecodeOutcome)
    (db : DB) (tok : String) (c : Claims) (uid : String) (u : User)
    (hdec : decode tok = DecodeOutcome.payload c)
    (hsub : c.sub = some uid) (hne : uid ≠ "")
    (hu : db.users.find? (fun x => x.id == uid) = some u) :
    get_current_user decode db tok = AuthOutcome.ok u := by
  simp [get_current_user, decode_token, hdec, hsub, hne, hu]

/-- Witness for the amended C2: the refresh-kind token `rtok` is accepted
by the gate and authenticates alice. -/
theorem get_current_user_ignores_kind_witness :
    get_current_user decodeR db0 "rtok" = AuthOutcome.ok alice :=
  get_current_user_ignores_kind decodeR db0 "rtok" refreshClaimsAlice "u1" alice
    (by decide) rfl (by decide) (by decide)

/-- Claim C4 (counterexample): a successful login's JSON body holds only
`access_token` and `token_type`; there is no `refresh_token` key and the
refresh-token string appears in no body value — it travels only in the
cookie. -/
theorem login_body_has_no_refresh_token :
    (login crypto0 issueAccess0 issueRefresh0 "rid1" 0 db0
        "alice@example.com" "pw1").1 =
      LoginOutcome.success [("access_token", "acc:u1"), ("token_type", "bearer")]
        { key := "refresh_token", value := "ref:u1", httponly := true,
          secure := true, samesite := "strict", max_age := 604800 } ∧
    ([("access_token", "acc:u1"), ("token_type", "bearer")].lookup
        "refresh_token" = none) ∧
    (∀ kv ∈ [("access_token", "acc:u1"), ("token_type", "bearer")],
      kv.2 ≠ "ref:u1") := by
  refine ⟨by decide, by decide, by decide⟩

/-- Claim C4 (amended): on success the body is exactly the access token plus
`token_type="bearer"`, while the refresh token is delivered only through
the HTTP-only, secure, same-site-strict cookie with a 7-day max age; bad
credentials yield 401 InvalidCredentials with the store untouched. -/
theorem login_spec (c : Crypto) (ia ir : String → String → String)
    (rid : String) (now : Int) (db : DB) (e p : String) (u : User)
    (hauth : authenticate_user c db e p = some u) :
    (login c ia ir rid now db e p).1 =
      LoginOutcome.success
        [("access_token", ia u.id u.email), ("token_type", "bearer")]
        { key := "refresh_token", value := ir u.id u.email,
          httponly := true, secure := true, samesite := "strict",
          max_age := 7 * 24 * 60 * 60 } ∧
    (∀ db2 e2 p2, authenticate_user c db2 e2 p2 = none →
      login c ia ir rid now db2 e2 p2 =
        (LoginOutcome.unauthorized "Invalid credentials", db2)) := by
  constructor
  · simp [login, hauth, create_refresh_token]
  · intro db2 e2 p2 hnone
    simp [login, hnone]

/-- Witness for the amended C4: logging alice in returns the access-token
body and the refresh-token cookie; a wrong password yields the 401. -/
theorem login_spec_witness :
    (login crypto0 issueAccess0 issueRefresh0 "rid1" 0 db0
        "alice@example.com" "pw1").1 =
      LoginOutcome.success [("access_token", "acc:u1"), ("token_type", "bearer")]
        { key := "refresh_token", value := "ref:u1", httponly := true,
          secure := true, samesite := "strict", max_age := 604800 } ∧
    login crypto0 issueAccess0 issueRefresh0 "rid1" 0 db0
        "alice@example.com" "wrong" =
      (LoginOutcome.unauthorized "Invalid credentials", db0) := by
  have h := login_spec crypto0 issueAccess0 issueRefresh0 "rid1" 0 db0
    "alice@example.com" "pw1" alice (by decide)
  exact ⟨by simpa [alice, issueAccess0, issueRefresh0] using h.1,
    h.2 db0 "alice@example.com" "wrong" (by decide)⟩

/-- Claim C8: registering with an email already present fails with
DuplicateEmail and leaves the store exactly as it was; with a fresh
email it appends exactly one user row carrying the hash of the given
password and modifies nothing else. -/
theorem create_user_spec (c : Crypto) (newId : String) (db : DB)
    (ud : UserCreate) :
    ((∃ u ∈ db.users, u.email = ud.email) →
      create_user c newId db ud = (RegisterOutcome.duplicateEmail, db)) ∧
    ((∀ u ∈ db.users, u.email ≠ ud.email) →
      create_user c newId db ud =
        (RegisterOutcome.ok
            { id := newId, email := ud.email, name := ud.name,
              password := c.hash ud.password },
          { db with users := (db.users ++
              [{ id := newId, email := ud.email, name := ud.name,
                 password := c.hash ud.password }]) })) := by
  constructor
  · rintro ⟨u, hu, he⟩
    have hs : (db.users.find? (fun x => x.email == ud.email)).isSome := by
      rw [List.find?_isSome]
      exact ⟨u, hu, by simpa using he⟩
    rcases Option.isSome_iff_exists.mp hs with ⟨v, hv⟩
    simp [create_user, hv]
  · intro hall
    have hn : db.users.find? (fun x => x.email == ud.email) = none := by
      rw [List.find?_eq_none]
      intro x hx
      simpa using hall x hx
    simp [create_user, hn]

/-- Witness for C8: re-registering alice's email fails with the store
unchanged; registering Carol appends exactly her hashed row. -/
theorem create_user_spec_witness :
    create_user crypto0 "u3" db0 udAliceDup =
      (RegisterOutcome.duplicateEmail, db0) ∧
    create_user crypto0 "u3" db0 udCarol =
      (RegisterOutcome.ok
          { id := "u3", email := "carol@example.com", name := "Carol",
            password := "argon2:pw3" },
        { db0 with users := (db0.users ++
            [{ id := "u3", email := "carol@example.com", name := "Carol",
               password := "argon2:pw3" }]) }) := by
  refine ⟨(create_user_spec crypto0 "u3" db0 udAliceDup).1
    ⟨alice, by decide, by decide⟩, ?_⟩
  have h := (create_user_spec crypto0 "u3" db0 udCarol).2 (by decide)
  simpa [udCarol, crypto0] using h

/-- Claim C9: authentication failure is uniform.  With an email matching no
stored user in one run and a known email but non-verifying password in
another, both runs return `None`, and the login route maps both to the
identical 401 InvalidCredentials outcome with the store untouched. -/
theorem authenticate_user_uniform_failure (c : Crypto) (db db2 : DB)
    (e p e2 p2 : String) (u2 : User)
    (h1 : ∀ u ∈ db.users, u.email ≠ e)
    (h2 : db2.users.find? (fun u => u.email == e2) = some u2)
    (h3 : c.verify p2 u2.password = false) :
    authenticate_user c db e p = none ∧
    authenticate_user c db2 e2 p2 = none ∧
    authenticate_user c db e p = authenticate_user c db2 e2 p2 ∧
    (∀ ia ir rid now,
      login c ia ir rid now db e p =
        (LoginOutcome.unauthorized "Invalid credentials", db) ∧
      login c ia ir rid now db2 e2 p2 =
        (LoginOutcome.unauthorized "Invalid credentials", db2)) := by
  have hn : db.users.find? (fun u => u.email == e) = none := by
    rw [List.find?_eq_none]
    intro x hx
    simpa using h1 x hx
  have a1 : authenticate_user c db e p = none := by
    simp [authenticate_user, hn]
  have a2 : authenticate_user c db2 e2 p2 = none := by
    simp [authenticate_user, h2, h3]
  refine ⟨a1, a2, by rw [a1, a2], ?_⟩
  intro ia ir rid now
  exact ⟨by simp [login, a1], by simp [login, a2]⟩

/-- Witness for C9: an unknown email and alice's email with a wrong
password both fail with the identical `None`/401 outcome. -/
theorem authenticate_user_uniform_failure_witness :
    authenticate_user crypto0 db0 "nobody@example.com" "pw1" = none ∧
    authenticate_user crypto0 db0 "alice@example.com" "wrong" = none ∧
    login crypto0 issueAccess0 issueRefresh0 "rid1" 0 db0
        "nobody@example.com" "pw1" =
      (LoginOutcome.unauthorized "Invalid credentials", db0) ∧
    login crypto0 issueAccess0 issueRefresh0 "rid1" 0 db0
        "alice@example.com" "wrong" =
      (LoginOutcome.unauthorized "Invalid credentials", db0) := by
  have h := authenticate_user_uniform_failure crypto0 db0 db0
    "nobody@example.com" "pw1" "alice@example.com" "wrong" alice
    (by decide) (by decide) (by decide)
  have h4 := h.2.2.2 issueAccess0 issueRefresh0 "rid1" 0
  exact ⟨h.1, h.2.1, h4.1, h4.2⟩

/-- Witness for C10: creating a `Widget` order for 9.99 succeeds in
PENDING owned by alice; an empty product name is rejected with the
store unchanged. -/
theorem create_order_endpoint_spec_witness :
    (create_order_endpoint "o9" 5 db0 alice "Widget" (mkRat 999 100)).1 =
      CreateOrderOutcome.created
        { id := "o9", user_id := "u1", product_name := "Widget",
          amount := mkRat 999 100, status := STATUS.PENDING, created_at := 5 } ∧
    create_order_endpoint "o9" 5 db0 alice "" (mkRat 999 100) =
      (CreateOrderOutcome.validationError, db0) := by
  refine ⟨?_, ?_⟩
  · have h := (create_order_endpoint_spec "o9" 5 db0 alice "Widget" (mkRat 999 100)).1
      (by decide) (by decide)
    simpa [alice] using h.1
  · exact (create_order_endpoint_spec "o9" 5 db0 alice "" (mkRat 999 100)).2 (Or.inl rfl)

/-- Claim C3: for a token that decodes to payload `c`, with stored token
strings unique (the `refresh_tokens.token` uniqueness constraint),
rotation fails exactly when the kind claim is not `refresh`, the
subject's user is absent, no stored row matches the token string, or the
matching row is expired; in the expired case the stored row is deleted,
so rotating the same string again still fails; in every other case it
succeeds with a fresh access token for the subject's user and leaves the
store unchanged. -/
theorem refresh_access_token_spec (decode : String → DecodeOutcome)
    (ia : String → String → String) (now : Int) (db : DB) (tok : String)
    (c : Claims) (hdec : decode tok = DecodeOutcome.payload c)
    (huniq : (db.refresh_tokens.map (fun r => r.token)).Nodup) :
    ((refresh_access_token decode ia now db tok).1 = none ↔
      (c.type ≠ some "refresh" ∨
       db.users.find? (fun u => decide (c.sub = some u.id)) = none ∨
       db.refresh_tokens.find? (fun r => r.token == tok) = none ∨
       (∃ entry, db.refresh_tokens.find? (fun r => r.token == tok) = some entry ∧
         entry.expires_at < now))) ∧
    (∀ entry, c.type = some "refresh" →
      (db.users.find? (fun u => decide (c.sub = some u.id))).isSome →
      db.refresh_tokens.find? (fun r => r.token == tok) = some entry →
      entry.expires_at < now →
      (refresh_access_token decode ia now db tok).2.refresh_tokens =
        db.refresh_tokens.erase entry ∧
      (refresh_access_token decode ia now
        (refresh_access_token decode ia now db tok).2 tok).1 = none) ∧
    (∀ u, c.type = some "refresh" →
      db.users.find? (fun u2 => decide (c.sub = some u2.id)) = some u →
      ∀ entry, db.refresh_tokens.find? (fun r => r.token == tok) = some entry →
      ¬ entry.expires_at < now →
      refresh_access_token decode ia now db tok = (some (ia u.id u.email), db)) := by
  by_cases ht : c.type = some "refresh"
  case neg =>
    have e : refresh_access_token decode ia now db tok = (none, db) := by
      simp [refresh_access_token, hdec, ht]
    refine ⟨?_, ?_, ?_⟩
    · rw [e]
      simp [ht]
    · intro entry ht2
      exact absurd ht2 ht
    · intro u ht2
      exact absurd ht2 ht
  case pos =>
    rcases hu : db.users.find? (fun u2 => decide (c.sub = some u2.id)) with _ | u
    · have e : refresh_access_token decode ia now db tok = (none, db) := by
        simp [refresh_access_token, hdec, ht, hu]
      refine ⟨?_, ?_, ?_⟩
      · rw [e]
        simp [hu]
      · intro entry _ hsome
        rw [hu] at hsome
        simp at hsome
      · intro u2 _ hu2
        rw [hu] at hu2
        cases hu2
    · rcases hr : db.refresh_tokens.find? (fun r => r.token == tok) with _ | entry
      · have e : refresh_access_token decode ia now db tok = (none, db) := by
          simp [refresh_access_token, hdec, ht, hu, hr]
        refine ⟨?_, ?_, ?_⟩
        · rw [e]
          simp [hr]
        · intro entry2 _ _ hfound
          rw [hr] at hfound
          cases hfound
        · intro u2 _ hu2 entry2 hfound
          rw [hr] at hfound
          cases hfound
      · by_cases hexp : entry.expires_at < now
        · have e : refresh_access_token decode ia now db tok =
              (none, { db with refresh_tokens := db.refresh_tokens.erase entry }) := by
            simp [refresh_access_token, hdec, ht, hu, hr, hexp]
          have hfe := find?_token_erase db.refresh_tokens tok entry hr huniq
          have hnone2 : (refresh_access_token decode ia now
              { db with refresh_tokens := db.refresh_tokens.erase entry } tok).1 = none := by
            simp [refresh_access_token, hdec, ht, hu, hfe]
          refine ⟨?_, ?_, ?_⟩
          · rw [e]
            exact iff_of_true rfl (Or.inr (Or.inr (Or.inr ⟨entry, hr, hexp⟩)))
          · intro entry2 _ _ hfound hexp2
            rw [hr] at hfound
            injection hfound with hfound
            subst hfound
            rw [e]
            exact ⟨rfl, hnone2⟩
          · intro u2 _ hu2 entry2 hfound hexp2
            rw [hr] at hfound
            injection hfound with hfound
            subst hfound
            exact absurd hexp hexp2
        · have e : refresh_access_token decode ia now db tok =
              (some (ia u.id u.email), db) := by
            simp [refresh_access_token, hdec, ht, hu, hr, hexp]
          refine ⟨?_, ?_, ?_⟩
          · rw [e]
            constructor
            · intro hc
              simp at hc
            · rintro (hca | hcb | hcc | ⟨e2, he2, hexp2⟩)
              · exact absurd ht hca
              · rw [hu] at hcb
                cases hcb
              · rw [hr] at hcc
                cases hcc
              · rw [hr] at he2
                injection he2 with he2
                subst he2
                exact absurd hexp2 hexp
          · intro entry2 _ _ hfound hexp2
            rw [hr] at hfound
            injection hfound with hfound
            subst hfound
            exact absurd hexp2 hexp
          · intro u2 _ hu2 entry2 hfound hexp2
            have hu2e : u = u2 := by
              rw [hu] at hu2
              exact Option.some.inj hu2
            rw [← hu2e]
            exact e

/-- Witness for C3 in the expired-row case: rotating alice's expired
stored token at time 100 fails, deletes the row, and rotating the same
string again still fails. -/
theorem refresh_access_token_spec_witness :
    (refresh_access_token decodeRef issueAccess0 100 dbStale "ref:u1").1 = none ∧
    (refresh_access_token decodeRef issueAccess0 100 dbStale "ref:u1").2.refresh_tokens =
      dbStale.refresh_tokens.erase staleRow ∧
    (refresh_access_token decodeRef issueAccess0 100
      (refresh_access_token decodeRef issueAccess0 100 dbStale "ref:u1").2 "ref:u1").1 = none := by
  have h := refresh_access_token_spec decodeRef issueAccess0 100 dbStale "ref:u1"
    refreshClaimsAlice (by decide) (by decide)
  have h2 := h.2.1 staleRow rfl (by decide) (by decide) (by decide)
  exact ⟨h.1.mpr (Or.inr (Or.inr (Or.inr ⟨staleRow, by decide, by decide⟩))),
    h2.1, h2.2⟩

/-- Claim C5: `create_refresh_token` deletes the user's existing stored row
before inserting the new one, so under the at-most-one-row-per-user
invariant a sequential login leaves the user exactly one stored row and
every other user's rows unchanged; a successful rotation
(`refresh_access_token`) never touches the store, so it preserves the
exactly-one-row state too. -/
theorem create_refresh_token_spec (ir : String → String → String)
    (rid : String) (now : Int) (db : DB) (u : User)
    (hinv : tokenRowCount db u.id ≤ 1) :
    tokenRowCount (create_refresh_token ir rid now db u).2 u.id = 1 ∧
    (∀ v, v ≠ u.id →
      tokenRowCount (create_refresh_token ir rid now db u).2 v =
        tokenRowCount db v) ∧
    (∀ (decode : String → DecodeOutcome) (ia : String → String → String)
        (tnow : Int) (db2 : DB) (tok : String),
      (refresh_access_token decode ia tnow db2 tok).1.isSome →
      (refresh_access_token decode ia tnow db2 tok).2 = db2) := by
  have part3 : ∀ (decode : String → DecodeOutcome)
      (ia : String → String → String) (tnow : Int) (db2 : DB) (tok : String),
      (refresh_access_token decode ia tnow db2 tok).1.isSome →
      (refresh_access_token decode ia tnow db2 tok).2 = db2 := by
    intro decode ia tnow db2 tok hsome
    rcases hd : decode tok with _ | _ | c2
    · simp [refresh_access_token, hd] at hsome
    · simp [refresh_access_token, hd] at hsome
    · by_cases ht : c2.type = some "refresh"
      · rcases hu2 : db2.users.find? (fun x => decide (c2.sub = some x.id)) with _ | u2
        · simp [refresh_access_token, hd, ht, hu2] at hsome
        · rcases hr2 : db2.refresh_tokens.find? (fun r => r.token == tok) with _ | entry
          · simp [refresh_access_token, hd, ht, hu2, hr2] at hsome
          · by_cases hexp : entry.expires_at < tnow
            · simp [refresh_access_token, hd, ht, hu2, hr2, hexp] at hsome
            · simp [refresh_access_token, hd, ht, hu2, hr2, hexp]
      · simp [refresh_access_token, hd, ht] at hsome
  unfold tokenRowCount at hinv ⊢
  rcases hold : db.refresh_tokens.find? (fun r => r.user_id == u.id) with _ | old
  · have h0 : db.refresh_tokens.countP (fun r => r.user_id == u.id) = 0 := by
      rw [List.countP_eq_zero]
      exact List.find?_eq_none.mp hold
    have e : (create_refresh_token ir rid now db u).2.refresh_tokens =
        (db.refresh_tokens ++
          [{ id := rid, token := ir u.id u.email, user_id := u.id,
             expires_at := now + 7 * 24 * 60 * 60 }]) := by
      simp [create_refresh_token, hold]
    refine ⟨?_, ?_, part3⟩
    · rw [e, List.countP_append, h0]
      simp
    · intro v hv
      rw [e, List.countP_append]
      have hnv : (u.id == v) = false := by
        simp
        exact fun hcon => hv hcon.symm
      simp [List.countP_singleton, hnv]
  · have hmem : old ∈ db.refresh_tokens := List.mem_of_find?_eq_some hold
    have hp0 := List.find?_some hold
    have hp : (old.user_id == u.id) = true := hp0
    have hpu : old.user_id = u.id := by simpa using hp
    rcases List.exists_erase_eq hmem with ⟨l1, l2, hnm, heq, herase⟩
    have e : (create_refresh_token ir rid now db u).2.refresh_tokens =
        ((db.refresh_tokens.erase old) ++
          [{ id := rid, token := ir u.id u.email, user_id := u.id,
             expires_at := now + 7 * 24 * 60 * 60 }]) := by
      simp [create_refresh_token, hold]
    have hc1 : db.refresh_tokens.countP (fun r => r.user_id == u.id) = 1 := by
      have hge : 0 < db.refresh_tokens.countP (fun r => r.user_id == u.id) :=
        List.countP_pos_iff.mpr ⟨old, hmem, hp⟩
      omega
    have hsplit : db.refresh_tokens.countP (fun r => r.user_id == u.id) =
        l1.countP (fun r => r.user_id == u.id) +
          (l2.countP (fun r => r.user_id == u.id) + 1) := by
      rw [heq, List.countP_append, List.countP_cons, hp]
      simp
    refine ⟨?_, ?_, part3⟩
    · rw [e, List.countP_append, herase, List.countP_append]
      have hone : List.countP (fun r : RefreshTokenRow => r.user_id == u.id)
          [{ id := rid, token := ir u.id u.email, user_id := u.id,
             expires_at := now + 7 * 24 * 60 * 60 }] = 1 := by
        simp [List.countP_singleton]
      omega
    · intro v hv
      have hnv : (u.id == v) = false := by
        simp
        exact fun hcon => hv hcon.symm
      have hvold : (old.user_id == v) = false := by
        rw [hpu]
        exact hnv
      have hzero : List.countP (fun r : RefreshTokenRow => r.user_id == v)
          [{ id := rid, token := ir u.id u.email, user_id := u.id,
             expires_at := now + 7 * 24 * 60 * 60 }] = 0 := by
        simp [List.countP_singleton, hnv]
      have hsplitv : db.refresh_tokens.countP (fun r => r.user_id == v) =
          l1.countP (fun r => r.user_id == v) +
            l2.countP (fun r => r.user_id == v) := by
        rw [heq, List.countP_append, List.countP_cons, hvold]
        simp
      rw [e, List.countP_append, herase, List.countP_append, hzero, hsplitv]
      omega

/-- Witness for C5: after alice (who already holds a stored row) logs in
again, she holds exactly one stored refresh-token row and bob's row count
is untouched. -/
theorem create_refresh_token_spec_witness :
    tokenRowCount (create_refresh_token issueRefresh0 "r2" 0 dbOneTok alice).2 "u1" = 1 ∧
    tokenRowCount (create_refresh_token issueRefresh0 "r2" 0 dbOneTok alice).2 "u2" =
      tokenRowCount dbOneTok "u2" := by
  have h := create_refresh_token_spec issueRefresh0 "r2" 0 dbOneTok alice (by decide)
  exact ⟨h.1, h.2.1 "u2" (by decide)⟩
